import Mathlib

/-!
Shallow embedding of the MCP protocol server of go-mcp-git
(internal/mcp/server.go and internal/mcp/types.go), together with
theorems about the dispatcher's behaviour.

JSON blobs that the dispatcher never inspects are modelled abstractly:
a params payload is represented by the outcomes of the only two
decodings the dispatcher ever applies to it, and a raw input frame is
represented by the outcome of decoding it as a JSONRPCRequest.
-/

namespace McpGit

/-- An opaque JSON-RPC request identifier (the Go code stores it as an
uninspected `interface\x7b\x7d` and only copies it into responses). -/
inductive JsonId
  | num (n : Int)
  | str (s : String)
deriving DecidableEq, Repr

/-- RPCError from types.go: code, message, optional data (never set by the
dispatcher). -/
structure RPCError where
  code : Int
  message : String
  data : Option String
deriving DecidableEq, Repr

/-- Tool descriptor from types.go. The input schema is an arbitrary JSON
document the dispatcher never inspects; it is modelled as an opaque string. -/
structure Tool where
  name : String
  description : String
  inputSchema : String
deriving DecidableEq, Repr

/-- TextContent from types.go. -/
structure TextContent where
  type : String
  text : String
deriving DecidableEq, Repr

/-- RootsCapability from types.go. -/
structure RootsCapability where
  listChanged : Bool
deriving DecidableEq, Repr

/-- ClientCapabilities from types.go. -/
structure ClientCapabilities where
  roots : Option RootsCapability
deriving DecidableEq, Repr

/-- ToolsCapability from types.go. -/
structure ToolsCapability where
  listChanged : Bool
deriving DecidableEq, Repr

/-- ServerCapabilities from types.go. -/
structure ServerCapabilities where
  tools : Option ToolsCapability
deriving DecidableEq, Repr

/-- ClientInfo from types.go. -/
structure ClientInfo where
  name : String
  version : String
deriving DecidableEq, Repr

/-- ServerInfo from types.go. -/
structure ServerInfo where
  name : String
  version : String
deriving DecidableEq, Repr

/-- InitializeRequest from types.go. -/
structure InitializeRequest where
  protocolVersion : String
  capabilities : ClientCapabilities
  clientInfo : ClientInfo
deriving DecidableEq, Repr

/-- InitializeResponse from types.go. -/
structure InitializeResponse where
  protocolVersion : String
  capabilities : ServerCapabilities
  serverInfo : ServerInfo
deriving DecidableEq, Repr

/-- ListToolsResponse from types.go. -/
structure ListToolsResponse where
  tools : List Tool
deriving DecidableEq, Repr

/-- Handler arguments: a JSON object mapping argument names to values the
dispatcher forwards without inspection; values are modelled opaquely. -/
abbrev Arguments := List (String × String)

/-- CallToolRequest from types.go. -/
structure CallToolRequest where
  name : String
  arguments : Arguments
deriving DecidableEq, Repr

/-- CallToolResponse from types.go. -/
structure CallToolResponse where
  content : List TextContent
deriving DecidableEq, Repr

/-- An opaque `json.RawMessage` params blob, represented by the outcomes of
the only two decodings the dispatcher ever applies to it: unmarshalling into
an InitializeRequest and unmarshalling into a CallToolRequest. -/
structure RawParams where
  asInit : Option InitializeRequest
  asCall : Option CallToolRequest

/-- JSONRPCRequest from types.go. `params := none` models a nil
`json.RawMessage`, i.e. the params field being entirely absent from the
frame. -/
structure JSONRPCRequest where
  jsonrpc : String
  id : Option JsonId
  method : String
  params : Option RawParams

/-- The result payload of a response: one of the three result record types
the dispatcher ever produces (stored as `interface\x7b\x7d` in Go). -/
inductive RpcResult
  | initR (r : InitializeResponse)
  | listR (r : ListToolsResponse)
  | callR (r : CallToolResponse)
deriving DecidableEq, Repr

/-- JSONRPCResponse from types.go. -/
structure JSONRPCResponse where
  jsonrpc : String
  id : Option JsonId
  result : Option RpcResult
  error : Option RPCError
deriving DecidableEq, Repr

def JSONRPCVersion : String := "2.0"

def MethodInitialize : String := "initialize"

def MethodListTools : String := "tools/list"

def MethodCallTool : String := "tools/call"

/-- ToolHandler from server.go: given the argument map it produces text
content blocks or fails with a descriptive error (the Go error value is
modelled by its message string; the context argument, which the dispatcher
merely forwards, is elided). -/
abbrev ToolHandler := Arguments → Except String (List TextContent)

/-- Server from server.go. The Go handler map is modelled as a lookup
function with overwrite-on-insert semantics. -/
structure Server where
  name : String
  version : String
  capabilities : ServerCapabilities
  tools : List Tool
  toolHandlers : String → Option ToolHandler
  initialized : Bool

/-- NewServer from server.go. -/
def NewServer (name version : String) : Server :=
  { name := name
    version := version
    capabilities := { tools := some { listChanged := false } }
    tools := []
    toolHandlers := fun _ => none
    initialized := false }

/-- Server.RegisterTool from server.go: appends the descriptor to the tools
slice and inserts (overwriting on duplicate name) the handler into the map. -/
def Server.RegisterTool (s : Server) (tool : Tool) (handler : ToolHandler) : Server :=
  { s with
    tools := s.tools ++ [tool]
    toolHandlers := fun n => if n = tool.name then some handler else s.toolHandlers n }

/-- Outcome of `json.Unmarshal(requestBytes, &request)`: either the frame
decodes into a JSONRPCRequest or it does not. -/
inductive RawInput
  | undecodable
  | decoded (request : JSONRPCRequest)

/-- The Go pair `(*JSONRPCResponse, error)` returned by handleRequest and the
three method handlers. -/
structure HandleResult where
  response : Option JSONRPCResponse
  err : Option String
deriving DecidableEq, Repr

/-- Outcome of `json.Unmarshal(request.Params, &initReq)`. A nil
`json.RawMessage` (absent params) is not valid JSON, so Unmarshal reports an
error there. -/
def decodeInitParams : Option RawParams → Option InitializeRequest
  | none => none
  | some p => p.asInit

/-- Outcome of `json.Unmarshal(request.Params, &callReq)`. A nil
`json.RawMessage` (absent params) is not valid JSON, so Unmarshal reports an
error there. -/
def decodeCallParams : Option RawParams → Option CallToolRequest
  | none => none
  | some p => p.asCall

/-- Server.handleInitialize from server.go. Returns the Go result pair and
the updated server state. -/
def Server.handleInitialize (s : Server) (request : JSONRPCRequest) :
    HandleResult × Server :=
  match decodeInitParams request.params with
  | none =>
      (⟨some { jsonrpc := JSONRPCVersion, id := request.id, result := none,
               error := some { code := -32602, message := "Invalid params", data := none } },
        none⟩, s)
  | some _initReq =>
      (⟨some { jsonrpc := JSONRPCVersion, id := request.id,
               result := some (.initR
                 { protocolVersion := "2024-11-05"
                   capabilities := s.capabilities
                   serverInfo := { name := s.name, version := s.version } })
               error := none },
        none⟩, { s with initialized := true })

/-- Server.handleListTools from server.go. -/
def Server.handleListTools (s : Server) (request : JSONRPCRequest) :
    HandleResult × Server :=
  if s.initialized then
    (⟨some { jsonrpc := JSONRPCVersion, id := request.id,
             result := some (.listR { tools := s.tools }), error := none },
      none⟩, s)
  else
    (⟨some { jsonrpc := JSONRPCVersion, id := request.id, result := none,
             error := some { code := -32002, message := "Server not initialized", data := none } },
      none⟩, s)

/-- Server.handleCallTool from server.go. -/
def Server.handleCallTool (s : Server) (request : JSONRPCRequest) :
    HandleResult × Server :=
  if s.initialized then
    match decodeCallParams request.params with
    | none =>
        (⟨some { jsonrpc := JSONRPCVersion, id := request.id, result := none,
                 error := some { code := -32602, message := "Invalid params", data := none } },
          none⟩, s)
    | some callReq =>
        match s.toolHandlers callReq.name with
        | none =>
            (⟨some { jsonrpc := JSONRPCVersion, id := request.id, result := none,
                     error := some { code := -32601,
                                     message := "Unknown tool: " ++ callReq.name,
                                     data := none } },
              none⟩, s)
        | some handler =>
            match handler callReq.arguments with
            | .error e =>
                (⟨some { jsonrpc := JSONRPCVersion, id := request.id, result := none,
                         error := some { code := -32603,
                                         message := "Tool execution error: " ++ e,
                                         data := none } },
                  none⟩, s)
            | .ok content =>
                (⟨some { jsonrpc := JSONRPCVersion, id := request.id,
                         result := some (.callR { content := content }), error := none },
                  none⟩, s)
  else
    (⟨some { jsonrpc := JSONRPCVersion, id := request.id, result := none,
             error := some { code := -32002, message := "Server not initialized", data := none } },
      none⟩, s)

/-- Server.handleRequest from server.go: decode, then route on the method
string. -/
def Server.handleRequest (s : Server) (input : RawInput) : HandleResult × Server :=
  match input with
  | .undecodable =>
      (⟨some { jsonrpc := JSONRPCVersion, id := none, result := none,
               error := some { code := -32700, message := "Parse error", data := none } },
        none⟩, s)
  | .decoded request =>
      if request.method = MethodInitialize then s.handleInitialize request
      else if request.method = MethodListTools then s.handleListTools request
      else if request.method = MethodCallTool then s.handleCallTool request
      else
        (⟨some { jsonrpc := JSONRPCVersion, id := request.id, result := none,
                 error := some { code := -32601, message := "Method not found", data := none } },
          none⟩, s)

/-- C4: an undecodable frame yields, in every server state, a best-effort
response with no id and error code -32700 "Parse error", a nil Go error, and
an unchanged server state. -/
theorem C4_parse_error (s : Server) :
    s.handleRequest RawInput.undecodable =
      (⟨some { jsonrpc := JSONRPCVersion, id := none, result := none,
               error := some { code := -32700, message := "Parse error", data := none } },
        none⟩, s) := rfl

/-- C2: for every request that decodes, the response id equals the request id
on every method and every branch; only an undecodable frame yields a response
without an id. -/
theorem C2_id_echo (s : Server) (request : JSONRPCRequest) :
    ((s.handleRequest (.decoded request)).1.response.map (fun r => r.id)) = some request.id ∧
    ((s.handleRequest RawInput.undecodable).1.response.map (fun r => r.id)) = some none := by
  refine ⟨?_, rfl⟩
  simp only [Server.handleRequest]
  split_ifs with h1 h2 h3
  · unfold Server.handleInitialize
    cases decodeInitParams request.params <;> simp
  · unfold Server.handleListTools
    by_cases hi : s.initialized <;> simp [hi]
  · unfold Server.handleCallTool
    by_cases hi : s.initialized <;> simp only [hi, if_true, if_false]
    · cases hp : decodeCallParams request.params with
      | none => simp
      | some callReq =>
          cases hh : s.toolHandlers callReq.name with
          | none => simp [hh]
          | some handler => cases hr : handler callReq.arguments <;> simp [hh, hr]
    · simp
  · simp

/-- C9: handleRequest is total and never signals failure upward: for every
input and state it returns a present response and a nil Go error. -/
theorem C9_total (s : Server) (input : RawInput) :
    ((s.handleRequest input).1.response).isSome = true ∧
    (s.handleRequest input).1.err = none := by
  cases input with
  | undecodable => exact ⟨rfl, rfl⟩
  | decoded request =>
      simp only [Server.handleRequest]
      split_ifs with h1 h2 h3
      · unfold Server.handleInitialize
        cases decodeInitParams request.params <;> simp
      · unfold Server.handleListTools
        by_cases hi : s.initialized <;> simp [hi]
      · unfold Server.handleCallTool
        by_cases hi : s.initialized <;> simp only [hi, if_true, if_false]
        · cases hp : decodeCallParams request.params with
          | none => simp
          | some callReq =>
              cases hh : s.toolHandlers callReq.name with
              | none => simp [hh]
              | some handler => cases hr : handler callReq.arguments <;> simp [hh, hr]
        · simp
      · simp

/-- C3: before any successful initialize, every tools/list and tools/call
request yields error -32002 "Server not initialized" regardless of payload,
and the server state is unchanged. -/
theorem C3_uninitialized_gate (s : Server) (request : JSONRPCRequest)
    (hinit : s.initialized = false)
    (hm : request.method = MethodListTools ∨ request.method = MethodCallTool) :
    (s.handleRequest (.decoded request)).1.response =
      some { jsonrpc := JSONRPCVersion, id := request.id, result := none,
             error := some { code := -32002, message := "Server not initialized",
                             data := none } } ∧
    (s.handleRequest (.decoded request)).2 = s := by
  have hLT : ("tools/list" : String) ≠ "initialize" := by decide
  have hCT1 : ("tools/call" : String) ≠ "initialize" := by decide
  have hCT2 : ("tools/call" : String) ≠ "tools/list" := by decide
  rcases hm with h | h
  · simp [Server.handleRequest, h, MethodInitialize, MethodListTools, MethodCallTool,
          Server.handleListTools, hinit, hLT]
  · simp [Server.handleRequest, h, MethodInitialize, MethodListTools, MethodCallTool,
          Server.handleCallTool, hinit, hCT1, hCT2]

/-- Fixtures: a sample tool, handlers, and servers reached through the actual
registration and initialize operations. -/
def demoTool : Tool :=
  { name := "git_status", description := "show working tree status", inputSchema := "object" }

def demoHandlerOk : ToolHandler := fun _ => .ok [{ type := "text", text := "clean" }]

def demoHandlerFail : ToolHandler := fun _ => .error "boom"

def demoInit : InitializeRequest :=
  { protocolVersion := "2024-11-05", capabilities := { roots := none },
    clientInfo := { name := "client", version := "1" } }

def demoInitReq : JSONRPCRequest :=
  { jsonrpc := "2.0", id := some (.num 1), method := "initialize",
    params := some { asInit := some demoInit, asCall := none } }

def demoServer0 : Server :=
  (NewServer "git-mcp-server" "1.0.0").RegisterTool demoTool demoHandlerOk

def demoServer : Server := (demoServer0.handleRequest (.decoded demoInitReq)).2

def c3Req : JSONRPCRequest :=
  { jsonrpc := "2.0", id := some (.num 7), method := "tools/list", params := none }

/-- C3 witness: a pre-initialize tools/list request on a concrete server. -/
theorem C3_uninitialized_gate_witness :
    demoServer0.initialized = false ∧
    ((demoServer0.handleRequest (.decoded c3Req)).1.response =
      some { jsonrpc := JSONRPCVersion, id := some (.num 7), result := none,
             error := some { code := -32002, message := "Server not initialized",
                             data := none } } ∧
    (demoServer0.handleRequest (.decoded c3Req)).2 = demoServer0) :=
  ⟨rfl, C3_uninitialized_gate demoServer0 c3Req rfl (Or.inl rfl)⟩

/-- C5: an initialized server answering tools/call for an unregistered name
returns error -32601, the message contains the unknown name, and the state
is unchanged. -/
theorem C5_unknown_tool (s : Server) (request : JSONRPCRequest) (callReq : CallToolRequest)
    (hinit : s.initialized = true)
    (hm : request.method = MethodCallTool)
    (hp : decodeCallParams request.params = some callReq)
    (habs : s.toolHandlers callReq.name = none) :
    (s.handleRequest (.decoded request)).1.response =
      some { jsonrpc := JSONRPCVersion, id := request.id, result := none,
             error := some { code := -32601,
                             message := "Unknown tool: " ++ callReq.name, data := none } } ∧
    (∃ pre post, "Unknown tool: " ++ callReq.name = pre ++ callReq.name ++ post) ∧
    (s.handleRequest (.decoded request)).2 = s := by
  have hCT1 : ("tools/call" : String) ≠ "initialize" := by decide
  have hCT2 : ("tools/call" : String) ≠ "tools/list" := by decide
  refine ⟨?_, ⟨"Unknown tool: ", "", by simp⟩, ?_⟩ <;>
    simp [Server.handleRequest, hm, MethodInitialize, MethodListTools, MethodCallTool,
          Server.handleCallTool, hinit, hp, habs, hCT1, hCT2]

def c5CallReq : CallToolRequest := { name := "nonexistent", arguments := [] }

def c5Req : JSONRPCRequest :=
  { jsonrpc := "2.0", id := some (.num 3), method := "tools/call",
    params := some { asInit := none, asCall := some c5CallReq } }

/-- C5 witness: calling an unregistered tool on a concrete initialized
server. -/
theorem C5_unknown_tool_witness :
    demoServer.initialized = true ∧
    demoServer.toolHandlers "nonexistent" = none ∧
    ((demoServer.handleRequest (.decoded c5Req)).1.response =
      some { jsonrpc := JSONRPCVersion, id := some (.num 3), result := none,
             error := some { code := -32601,
                             message := "Unknown tool: " ++ "nonexistent", data := none } } ∧
    (∃ pre post, "Unknown tool: " ++ "nonexistent" = pre ++ "nonexistent" ++ post) ∧
    (demoServer.handleRequest (.decoded c5Req)).2 = demoServer) :=
  ⟨rfl, rfl, C5_unknown_tool demoServer c5Req c5CallReq rfl rfl rfl rfl⟩

/-- C6: a registered handler that fails is surfaced as error -32603 with the
wrapped message "Tool execution error: " followed by the failure description;
the Go error slot stays nil and the server state is unchanged. -/
theorem C6_handler_error (s : Server) (request : JSONRPCRequest) (callReq : CallToolRequest)
    (handler : ToolHandler) (e : String)
    (hinit : s.initialized = true)
    (hm : request.method = MethodCallTool)
    (hp : decodeCallParams request.params = some callReq)
    (hh : s.toolHandlers callReq.name = some handler)
    (hfail : handler callReq.arguments = .error e) :
    (s.handleRequest (.decoded request)).1.response =
      some { jsonrpc := JSONRPCVersion, id := request.id, result := none,
             error := some { code := -32603,
                             message := "Tool execution error: " ++ e, data := none } } ∧
    (∃ pre post, "Tool execution error: " ++ e = pre ++ e ++ post) ∧
    (s.handleRequest (.decoded request)).1.err = none ∧
    (s.handleRequest (.decoded request)).2 = s := by
  have hCT1 : ("tools/call" : String) ≠ "initialize" := by decide
  have hCT2 : ("tools/call" : String) ≠ "tools/list" := by decide
  refine ⟨?_, ⟨"Tool execution error: ", "", by simp⟩, ?_, ?_⟩ <;>
    simp [Server.handleRequest, hm, MethodInitialize, MethodListTools, MethodCallTool,
          Server.handleCallTool, hinit, hp, hh, hfail, hCT1, hCT2]

def failServer0 : Server :=
  (NewServer "git-mcp-server" "1.0.0").RegisterTool demoTool demoHandlerFail

def failServer : Server := (failServer0.handleRequest (.decoded demoInitReq)).2

def c6CallReq : CallToolRequest := { name := "git_status", arguments := [] }

def c6Req : JSONRPCRequest :=
  { jsonrpc := "2.0", id := some (.num 4), method := "tools/call",
    params := some { asInit := none, asCall := some c6CallReq } }

/-- C6 witness: a concrete failing handler is wrapped into -32603. -/
theorem C6_handler_error_witness :
    failServer.initialized = true ∧
    failServer.toolHandlers "git_status" = some demoHandlerFail ∧
    demoHandlerFail [] = .error "boom" ∧
    ((failServer.handleRequest (.decoded c6Req)).1.response =
      some { jsonrpc := JSONRPCVersion, id := some (.num 4), result := none,
             error := some { code := -32603,
                             message := "Tool execution error: " ++ "boom", data := none } } ∧
    (∃ pre post, "Tool execution error: " ++ "boom" = pre ++ "boom" ++ post) ∧
    (failServer.handleRequest (.decoded c6Req)).1.err = none ∧
    (failServer.handleRequest (.decoded c6Req)).2 = failServer) :=
  ⟨rfl, rfl, rfl,
   C6_handler_error failServer c6Req c6CallReq demoHandlerFail "boom" rfl rfl rfl rfl rfl⟩

/-- C7: initialize is idempotent on server state: after two well-formed
initialize requests the state equals the state after the first, the flag is
true, registrations are untouched, and tools/list succeeds. -/
theorem C7_initialize_idempotent (s : Server) (r1 r2 : JSONRPCRequest)
    (hm1 : r1.method = MethodInitialize) (hm2 : r2.method = MethodInitialize)
    (h1 : (decodeInitParams r1.params).isSome = true)
    (h2 : (decodeInitParams r2.params).isSome = true) :
    ((s.handleRequest (.decoded r1)).2.handleRequest (.decoded r2)).2 =
      (s.handleRequest (.decoded r1)).2 ∧
    (s.handleRequest (.decoded r1)).2.initialized = true ∧
    (s.handleRequest (.decoded r1)).2.tools = s.tools ∧
    (s.handleRequest (.decoded r1)).2.toolHandlers = s.toolHandlers ∧
    (∀ req : JSONRPCRequest, req.method = MethodListTools →
      ((s.handleRequest (.decoded r1)).2.handleRequest (.decoded req)).1.response =
        some { jsonrpc := JSONRPCVersion, id := req.id,
               result := some (.listR { tools := s.tools }), error := none }) := by
  have hLT : ("tools/list" : String) ≠ "initialize" := by decide
  rcases ho1 : decodeInitParams r1.params with _ | i1
  · rw [ho1] at h1; simp at h1
  rcases ho2 : decodeInitParams r2.params with _ | i2
  · rw [ho2] at h2; simp at h2
  have hs1 : (s.handleRequest (.decoded r1)).2 = { s with initialized := true } := by
    simp [Server.handleRequest, hm1, Server.handleInitialize, ho1]
  refine ⟨?_, ?_, ?_, ?_, ?_⟩
  · rw [hs1]
    simp [Server.handleRequest, hm2, Server.handleInitialize, ho2]
  · rw [hs1]
  · rw [hs1]
  · rw [hs1]
  · intro req hreq
    rw [hs1]
    simp [Server.handleRequest, hreq, MethodInitialize, MethodListTools,
          Server.handleListTools, hLT]

/-- C7 witness: initializing a concrete registered server twice. -/
theorem C7_initialize_idempotent_witness :
    demoInitReq.method = MethodInitialize ∧
    (decodeInitParams demoInitReq.params).isSome = true ∧
    (((demoServer0.handleRequest (.decoded demoInitReq)).2.handleRequest
        (.decoded demoInitReq)).2 =
      (demoServer0.handleRequest (.decoded demoInitReq)).2 ∧
    (demoServer0.handleRequest (.decoded demoInitReq)).2.initialized = true ∧
    (demoServer0.handleRequest (.decoded demoInitReq)).2.tools = demoServer0.tools ∧
    (demoServer0.handleRequest (.decoded demoInitReq)).2.toolHandlers =
      demoServer0.toolHandlers ∧
    (∀ req : JSONRPCRequest, req.method = MethodListTools →
      ((demoServer0.handleRequest (.decoded demoInitReq)).2.handleRequest
          (.decoded req)).1.response =
        some { jsonrpc := JSONRPCVersion, id := req.id,
               result := some (.listR { tools := demoServer0.tools }), error := none })) :=
  ⟨rfl, rfl, C7_initialize_idempotent demoServer0 demoInitReq demoInitReq rfl rfl rfl rfl⟩

/-- C8: a successful initialize always advertises protocol version
"2024-11-05" — independent of the version the client requested — and reports
the server identity fixed at construction. -/
theorem C8_fixed_protocol_version (s : Server) (request : JSONRPCRequest)
    (initReq : InitializeRequest)
    (hm : request.method = MethodInitialize)
    (hp : decodeInitParams request.params = some initReq) :
    (s.handleRequest (.decoded request)).1.response =
      some { jsonrpc := JSONRPCVersion, id := request.id,
             result := some (.initR
               { protocolVersion := "2024-11-05"
                 capabilities := s.capabilities
                 serverInfo := { name := s.name, version := s.version } })
             error := none } := by
  simp [Server.handleRequest, hm, Server.handleInitialize, hp]

def c8Init : InitializeRequest :=
  { protocolVersion := "x", capabilities := { roots := none },
    clientInfo := { name := "t", version := "1" } }

def c8Req : JSONRPCRequest :=
  { jsonrpc := "2.0", id := some (.num 2), method := "initialize",
    params := some { asInit := some c8Init, asCall := none } }

/-- C8 witness: a concrete initialize whose client requested protocol
version "x" still gets "2024-11-05" and the configured identity back. -/
theorem C8_fixed_protocol_version_witness :
    decodeInitParams c8Req.params = some c8Init ∧
    c8Init.protocolVersion = "x" ∧
    (demoServer0.handleRequest (.decoded c8Req)).1.response =
      some { jsonrpc := JSONRPCVersion, id := some (.num 2),
             result := some (.initR
               { protocolVersion := "2024-11-05"
                 capabilities := demoServer0.capabilities
                 serverInfo := { name := "git-mcp-server", version := "1.0.0" } })
             error := none } :=
  ⟨rfl, rfl, C8_fixed_protocol_version demoServer0 c8Req c8Init rfl rfl⟩

/-- C10: an entirely absent params field is a decode failure for initialize
and for tools/call on an initialized server (error -32602 "Invalid params"),
while tools/list never decodes params and succeeds without them. -/
theorem C10_absent_params (s : Server) (request : JSONRPCRequest)
    (hp : request.params = none) :
    (request.method = MethodInitialize →
       (s.handleRequest (.decoded request)).1.response =
         some { jsonrpc := JSONRPCVersion, id := request.id, result := none,
                error := some { code := -32602, message := "Invalid params",
                                data := none } }) ∧
    (s.initialized = true → request.method = MethodCallTool →
       (s.handleRequest (.decoded request)).1.response =
         some { jsonrpc := JSONRPCVersion, id := request.id, result := none,
                error := some { code := -32602, message := "Invalid params",
                                data := none } }) ∧
    (s.initialized = true → request.method = MethodListTools →
       (s.handleRequest (.decoded request)).1.response =
         some { jsonrpc := JSONRPCVersion, id := request.id,
                result := some (.listR { tools := s.tools }), error := none }) := by
  have hLT : ("tools/list" : String) ≠ "initialize" := by decide
  have hCT1 : ("tools/call" : String) ≠ "initialize" := by decide
  have hCT2 : ("tools/call" : String) ≠ "tools/list" := by decide
  refine ⟨?_, ?_, ?_⟩
  · intro hm
    simp [Server.handleRequest, hm, Server.handleInitialize, hp, decodeInitParams]
  · intro hinit hm
    simp [Server.handleRequest, hm, MethodInitialize, MethodListTools, MethodCallTool,
          Server.handleCallTool, hinit, hp, decodeCallParams, hCT1, hCT2]
  · intro hinit hm
    simp [Server.handleRequest, hm, MethodInitialize, MethodListTools,
          Server.handleListTools, hinit, hLT]

def c10InitReq : JSONRPCRequest :=
  { jsonrpc := "2.0", id := some (.num 9), method := "initialize", params := none }

/-- C10 witness: a concrete initialize request without params gets -32602. -/
theorem C10_absent_params_witness :
    c10InitReq.params = none ∧
    (c10InitReq.method = MethodInitialize →
       (demoServer.handleRequest (.decoded c10InitReq)).1.response =
         some { jsonrpc := JSONRPCVersion, id := some (.num 9), result := none,
                error := some { code := -32602, message := "Invalid params",
                                data := none } }) ∧
    (demoServer.initialized = true → c10InitReq.method = MethodCallTool →
       (demoServer.handleRequest (.decoded c10InitReq)).1.response =
         some { jsonrpc := JSONRPCVersion, id := some (.num 9), result := none,
                error := some { code := -32602, message := "Invalid params",
                                data := none } }) ∧
    (demoServer.initialized = true → c10InitReq.method = MethodListTools →
       (demoServer.handleRequest (.decoded c10InitReq)).1.response =
         some { jsonrpc := JSONRPCVersion, id := some (.num 9),
                result := some (.listR { tools := demoServer.tools }), error := none }) :=
  ⟨rfl, C10_absent_params demoServer c10InitReq rfl⟩

def c1Tool1 : Tool :=
  { name := "status", description := "first registration", inputSchema := "schema1" }

def c1Tool2 : Tool :=
  { name := "status", description := "second registration", inputSchema := "schema2" }

def c1Handler1 : ToolHandler := fun _ => .ok [{ type := "text", text := "one" }]

def c1Handler2 : ToolHandler := fun _ => .ok [{ type := "text", text := "two" }]

def c1Registered : Server :=
  ((NewServer "git-mcp-server" "1.0.0").RegisterTool c1Tool1 c1Handler1).RegisterTool
    c1Tool2 c1Handler2

def c1Server : Server := (c1Registered.handleRequest (.decoded demoInitReq)).2

def c1ListReq : JSONRPCRequest :=
  { jsonrpc := "2.0", id := some (.num 2), method := "tools/list", params := none }

/-- The tool list carried by the tools/list response of the duplicate-name
server. -/
def c1ListedTools : List Tool :=
  match (c1Server.handleRequest (.decoded c1ListReq)).1.response with
  | some { result := some (.listR r), .. } => r.tools
  | _ => []

/-- C1 counterexample: after RegisterTool is called twice with two tools both
named "status" and the server is initialized, tools/list returns a list with
two entries of that name — not exactly one entry holding the descriptor of
the last registration. -/
theorem C1_counterexample :
    ¬ ((c1ListedTools.filter (fun t => t.name == "status")).length = 1 ∧
       c1ListedTools.filter (fun t => t.name == "status") = [c1Tool2]) := by
  have hlist : c1ListedTools.filter (fun t => t.name == "status") = [c1Tool1, c1Tool2] := by
    rfl
  rw [hlist]
  simp

/-- C1 amended: registering two tools with the same name keeps one descriptor
per registration in the tools slice, so tools/list on an initialized server
reports both entries in registration order; only the handler map is
last-write-wins, so the name resolves to the second handler. -/
theorem C1_duplicate_registration (s : Server) (t1 t2 : Tool) (h1 h2 : ToolHandler)
    (hname : t1.name = t2.name) (hinit : s.initialized = true) :
    ((s.RegisterTool t1 h1).RegisterTool t2 h2).tools = s.tools ++ [t1, t2] ∧
    ((s.RegisterTool t1 h1).RegisterTool t2 h2).toolHandlers t1.name = some h2 ∧
    (∀ req : JSONRPCRequest, req.method = MethodListTools →
      (((s.RegisterTool t1 h1).RegisterTool t2 h2).handleRequest
          (.decoded req)).1.response =
        some { jsonrpc := JSONRPCVersion, id := req.id,
               result := some (.listR { tools := s.tools ++ [t1, t2] }),
               error := none }) := by
  have hLT : ("tools/list" : String) ≠ "initialize" := by decide
  refine ⟨by simp [Server.RegisterTool], by simp [Server.RegisterTool, hname], ?_⟩
  intro req hreq
  simp [Server.handleRequest, hreq, MethodInitialize, MethodListTools,
        Server.handleListTools, Server.RegisterTool, hinit, hLT]

def c1Base : Server := { NewServer "git-mcp-server" "1.0.0" with initialized := true }

/-- C1 amended witness: concrete duplicate registration on an initialized
server. -/
theorem C1_duplicate_registration_witness :
    c1Tool1.name = c1Tool2.name ∧
    c1Base.initialized = true ∧
    (((c1Base.RegisterTool c1Tool1 c1Handler1).RegisterTool c1Tool2 c1Handler2).tools =
      c1Base.tools ++ [c1Tool1, c1Tool2] ∧
    ((c1Base.RegisterTool c1Tool1 c1Handler1).RegisterTool c1Tool2
        c1Handler2).toolHandlers c1Tool1.name = some c1Handler2 ∧
    (∀ req : JSONRPCRequest, req.method = MethodListTools →
      (((c1Base.RegisterTool c1Tool1 c1Handler1).RegisterTool c1Tool2
          c1Handler2).handleRequest (.decoded req)).1.response =
        some { jsonrpc := JSONRPCVersion, id := req.id,
               result := some (.listR { tools := c1Base.tools ++ [c1Tool1, c1Tool2] }),
               error := none })) :=
  ⟨rfl, rfl, C1_duplicate_registration c1Base c1Tool1 c1Tool2 c1Handler1 c1Handler2 rfl rfl⟩

end McpGit
